import Mathlib

/-!
Shallow embedding of the service adapter layer in `src/service/util.rs`
of the `hyper` repository.

Modelling choices:
* A `Future` that resolves to `Result<Response<ResBody>, E>` is modelled by
  its resolved value, an `Except E (Response ResBody)`.
* `FnMut(Request<ReqBody>) -> Ret` is modelled as a Lean function
  `Request ReqBody → Ret`; the `Service` impl for `ServiceFn` only exists at
  such function types, so `ServiceFn.call` is stated at them.
* `E: Into<Box<dyn StdError + Send + Sync>>` is modelled by an arbitrary
  conversion function `E → B` into an arbitrary boxed-error type `B`; the
  adapter itself never applies it, matching `type Error = E` in the impl.
* `HashMap<String, ServiceFn<F, R>>` is modelled extensionally as a function
  `String → Option (ServiceFn F R)`; `HashMap::insert` overwrites the entry
  for the key and leaves all other keys untouched, `HashMap::get` reads.
* `Clone for ServiceFn` calls `self.f.clone()`; the callable type's own
  `Clone` implementation is an explicit parameter `cloneF : F → F`.
-/

/-- A request parameterized over an abstract body type (external collaborator,
kept abstract: only the body payload is represented). -/
structure Request (R : Type) where
  body : R
deriving DecidableEq

/-- A response parameterized over an abstract body type. -/
structure Response (B : Type) where
  body : B
deriving DecidableEq

/-- `pub struct ServiceFn<F, R> { f: F, _req: PhantomData<fn(R)> }`.
The `PhantomData` field is zero-sized and carries no data; the parameter `R`
is kept on the type. -/
structure ServiceFn (F : Type) (R : Type) where
  f : F

/-- `pub fn service_fn<F, R, S>(f: F) -> ServiceFn<F, R>`: wraps the callable,
storing it unchanged. -/
def service_fn {F R : Type} (f : F) : ServiceFn F R :=
  ⟨f⟩

/-- `impl Service for ServiceFn`: `fn call(&mut self, req) -> Self::Future`
is `(self.f)(req)`. The callable returns a future of
`Result<Response<ResBody>, E>`, modelled by its resolution. -/
def ServiceFn.call {ReqBody ResBody E : Type}
    (s : ServiceFn (Request ReqBody → Except E (Response ResBody)) ReqBody)
    (req : Request ReqBody) : Except E (Response ResBody) :=
  s.f req

/-- `impl Debug for ServiceFn`: `f.debug_struct("impl Service").finish()`.
A debug struct with no recorded fields renders as just its name, so the
produced output is the fixed string `"impl Service"` for every adapter. -/
def ServiceFn.fmt {F R : Type} (_ : ServiceFn F R) : String :=
  "impl Service"

/-- `impl Clone for ServiceFn where F: Clone`: clones exactly the wrapped
callable, `ServiceFn { f: self.f.clone(), _req: PhantomData }`. The callable
type's `Clone` implementation is passed explicitly as `cloneF`. -/
def ServiceFn.clone {F R : Type} (cloneF : F → F) (s : ServiceFn F R) :
    ServiceFn F R :=
  ⟨cloneF s.f⟩

/-- `pub struct ServiceFns<F, R> { fns: HashMap<String, ServiceFn<F, R>> }`,
with the hash map modelled extensionally by key. -/
structure ServiceFns (F : Type) (R : Type) where
  fns : String → Option (ServiceFn F R)

/-- `fn new() -> Self`: a registry whose map has no entries. -/
def ServiceFns.new (F R : Type) : ServiceFns F R :=
  ⟨fun _ => none⟩

/-- `fn add(&mut self, key: String, serviceFn: ServiceFn<F, R>)`:
`self.fns.insert(key, serviceFn)` overwrites the entry for `key` and leaves
every other key unchanged. -/
def ServiceFns.add {F R : Type} (m : ServiceFns F R) (key : String)
    (s : ServiceFn F R) : ServiceFns F R :=
  ⟨fun k => if k = key then some s else m.fns k⟩

/-- `fn get(&self, key: &str) -> Option<&ServiceFn<F, R>>`:
`self.fns.get(key)`. -/
def ServiceFns.get {F R : Type} (m : ServiceFns F R) (key : String) :
    Option (ServiceFn F R) :=
  m.fns key

/-- State-passing rendering of `get`, which takes the registry by shared
reference (`&self`) and therefore hands it back unmodified alongside the
looked-up value. -/
def ServiceFns.getS {F R : Type} (m : ServiceFns F R) (key : String) :
    Option (ServiceFn F R) × ServiceFns F R :=
  (m.fns key, m)

/-- A sequence of `add` calls, used to express "every key that was never
registered" over an arbitrary registration history. -/
def ServiceFns.addAll {F R : Type} (m : ServiceFns F R)
    (l : List (String × ServiceFn F R)) : ServiceFns F R :=
  l.foldl (fun acc p => acc.add p.1 p.2) m

/-- Helper: `add` leaves every other key untouched. -/
theorem ServiceFns.get_add_of_ne {F R : Type} (m : ServiceFns F R)
    (k k' : String) (a : ServiceFn F R) (h : k' ≠ k) :
    (m.add k a).get k' = m.get k' := by
  simp [ServiceFns.add, ServiceFns.get, h]

/-- Helper: a history of registrations avoiding key `k` leaves `get k`
unchanged. -/
theorem ServiceFns.get_addAll_of_notMem {F R : Type}
    (l : List (String × ServiceFn F R)) (k : String)
    (h : k ∉ l.map Prod.fst) :
    ∀ m : ServiceFns F R, (m.addAll l).get k = m.get k := by
  induction l with
  | nil => intro m; rfl
  | cons p t ih =>
    intro m
    have hk : k ≠ p.1 := by
      intro hEq
      exact h (by simp [hEq])
    have ht : k ∉ t.map Prod.fst := by
      intro hm
      exact h (by simp [hm])
    have step : m.addAll (p :: t) = (m.add p.1 p.2).addAll t := rfl
    rw [step, ih ht, ServiceFns.get_add_of_ne m p.1 k p.2 hk]

/- Concrete instances used by the witnesses. -/

/-- A concrete request with a `Nat` body. -/
def reqEx : Request Nat :=
  ⟨0⟩

/-- A concrete successful callable: echoes the request body. -/
def fOk : Request Nat → Except String (Response Nat) :=
  fun r => Except.ok ⟨r.body⟩

/-- A concrete failing callable. -/
def fErr : Request Nat → Except String (Response Nat) :=
  fun _ => Except.error "boom"

/-- A concrete adapter wrapping `fOk`. -/
def aEx : ServiceFn (Request Nat → Except String (Response Nat)) Nat :=
  service_fn fOk

/-- A concrete adapter wrapping `fErr`. -/
def bEx : ServiceFn (Request Nat → Except String (Response Nat)) Nat :=
  service_fn fErr

/-- A concrete registry holding `aEx` at key `"a"`. -/
def mEx : ServiceFns (Request Nat → Except String (Response Nat)) Nat :=
  (ServiceFns.new _ _).add "a" aEx

/- Claim theorems. -/

/-- C1: for every callable `f` of the required shape and every request `req`,
`service_fn(f).call(req)` is exactly `f(req)`: the adapter is a pure
pass-through applying no buffering, retry, or transformation. -/
theorem serviceFn_call_pure_delegation {ReqBody ResBody E : Type}
    (f : Request ReqBody → Except E (Response ResBody)) (req : Request ReqBody) :
    (service_fn f).call req = f req :=
  rfl

/-- C2: whenever the wrapped callable's future resolves to an error `e`, the
adapter's future resolves to exactly that error and to no other value, and
applying the required conversion into the uniform boxed error type yields the
conversion of `e`; the adapter never intercepts, wraps, translates, or
originates any error. -/
theorem serviceFn_error_propagation {ReqBody ResBody E B : Type}
    (conv : E → B) (f : Request ReqBody → Except E (Response ResBody))
    (req : Request ReqBody) (e : E) (h : f req = Except.error e) :
    (service_fn f).call req = Except.error e ∧
      ((service_fn f).call req).mapError conv = Except.error (conv e) := by
  constructor
  · exact h
  · simp [ServiceFn.call, service_fn, h, Except.mapError]

/-- Witness for C2 at a concrete failing callable. -/
theorem serviceFn_error_propagation_witness :
    (service_fn fErr).call reqEx = Except.error "boom" ∧
      ((service_fn fErr).call reqEx).mapError String.length =
        Except.error (String.length "boom") :=
  serviceFn_error_propagation String.length fErr reqEx "boom" rfl

/-- C3: registry round-trip: after `add k a`, `get k` returns an adapter
whose `call` behaves identically to calling `a` directly, on every request. -/
theorem registry_roundtrip {ReqBody ResBody E : Type}
    (m : ServiceFns (Request ReqBody → Except E (Response ResBody)) ReqBody)
    (k : String)
    (a : ServiceFn (Request ReqBody → Except E (Response ResBody)) ReqBody) :
    ∃ a0, (m.add k a).get k = some a0 ∧ ∀ req, a0.call req = a.call req := by
  refine ⟨a, ?_, fun _ => rfl⟩
  simp [ServiceFns.add, ServiceFns.get]

/-- C4: registry overwrite is last-write-wins: after `add k a1` then
`add k a2`, `get k` returns exactly the second adapter (never the first), its
`call` agreeing with `a2` on every request; the first is silently discarded
with no error signalled. -/
theorem registry_overwrite {ReqBody ResBody E : Type}
    (m : ServiceFns (Request ReqBody → Except E (Response ResBody)) ReqBody)
    (k : String)
    (a1 a2 : ServiceFn (Request ReqBody → Except E (Response ResBody)) ReqBody) :
    ((m.add k a1).add k a2).get k = some a2 ∧
      ∃ a0, ((m.add k a1).add k a2).get k = some a0 ∧
        ∀ req, a0.call req = a2.call req := by
  refine ⟨?_, a2, ?_, fun _ => rfl⟩ <;>
    simp [ServiceFns.add, ServiceFns.get]

/-- C5: a fresh registry has no entries, and `get` on any key never
registered — over an arbitrary registration history avoiding it — returns
`none`, not a panic and not a substituted default handler. -/
theorem registry_miss {F R : Type} (l : List (String × ServiceFn F R))
    (k : String) (h : k ∉ l.map Prod.fst) :
    ((ServiceFns.new F R).addAll l).get k = none ∧
      (ServiceFns.new F R).get k = none := by
  have hn : (ServiceFns.new F R).get k = none := rfl
  refine ⟨?_, hn⟩
  rw [ServiceFns.get_addAll_of_notMem l k h, hn]

/-- Witness for C5 at a concrete one-entry history and an absent key. -/
theorem registry_miss_witness :
    ((ServiceFns.new (Request Nat → Except String (Response Nat)) Nat).addAll
        [("a", aEx)]).get "b" = none ∧
      (ServiceFns.new (Request Nat → Except String (Response Nat)) Nat).get "b" =
        none :=
  registry_miss [("a", aEx)] "b" (by decide)

/-- C6: duplication is shallow and behavior-preserving: cloning the adapter
duplicates exactly the wrapped callable via the callable's own clone, and —
under the hypothesis that the callable duplicates correctly — the copy's
`call` is indistinguishable from the original's on every request. -/
theorem serviceFn_clone_shallow {ReqBody ResBody E : Type}
    (cloneF : (Request ReqBody → Except E (Response ResBody)) →
      Request ReqBody → Except E (Response ResBody))
    (s : ServiceFn (Request ReqBody → Except E (Response ResBody)) ReqBody)
    (h : cloneF s.f = s.f) (req : Request ReqBody) :
    (s.clone cloneF).f = cloneF s.f ∧ (s.clone cloneF).call req = s.call req := by
  refine ⟨rfl, ?_⟩
  simp [ServiceFn.clone, ServiceFn.call, h]

/-- Witness for C6 at a concrete adapter whose callable clones by identity. -/
theorem serviceFn_clone_shallow_witness :
    (aEx.clone id).f = id aEx.f ∧ (aEx.clone id).call reqEx = aEx.call reqEx :=
  serviceFn_clone_shallow id aEx rfl reqEx

/-- C7: the debug representation of every adapter, whatever the wrapped
callable and its type, is the one fixed string identifying it as a handler
instance, so any two adapters have identical debug output and nothing of the
callable's representation is revealed. -/
theorem serviceFn_debug_generic {F R G T : Type}
    (s : ServiceFn F R) (t : ServiceFn G T) :
    s.fmt = "impl Service" ∧ s.fmt = t.fmt :=
  ⟨rfl, rfl⟩

/-- C8: lookup is read-only: `get`, taken in its state-passing form, returns
the looked-up value together with the registry unchanged, so every subsequent
lookup of any key returns the same result as before. -/
theorem registry_get_readonly {F R : Type} (m : ServiceFns F R) (k : String) :
    (m.getS k).1 = m.get k ∧ (m.getS k).2 = m ∧
      ∀ k', ((m.getS k).2).get k' = m.get k' :=
  ⟨rfl, rfl, fun _ => rfl⟩

/-- C9: registration is local to its key: after `add k a`, `get k'` for every
key `k'` different from `k` returns exactly what it returned before. -/
theorem registry_add_frame {F R : Type} (m : ServiceFns F R) (k k' : String)
    (a : ServiceFn F R) (h : k' ≠ k) :
    (m.add k a).get k' = m.get k' :=
  ServiceFns.get_add_of_ne m k k' a h

/-- Witness for C9 at a concrete registry and distinct keys. -/
theorem registry_add_frame_witness :
    (mEx.add "c" bEx).get "b" = mEx.get "b" :=
  registry_add_frame mEx "c" "b" bEx (by decide)

/-- C10: the registry is homogeneous over one callable type: any adapters
retrieved from one `ServiceFns F R` wrap callables of the same single type
`F` — each is `ServiceFn.mk` of some `f : F`. -/
theorem registry_homogeneous {F R : Type} (m : ServiceFns F R)
    (k1 k2 : String) (a1 a2 : ServiceFn F R)
    (h1 : m.get k1 = some a1) (h2 : m.get k2 = some a2) :
    ∃ f1 f2 : F, a1 = ServiceFn.mk f1 ∧ a2 = ServiceFn.mk f2 :=
  ⟨a1.f, a2.f, rfl, rfl⟩

/-- Witness for C10 at a concrete registry with one stored adapter. -/
theorem registry_homogeneous_witness :
    ∃ f1 f2 : Request Nat → Except String (Response Nat),
      aEx = ServiceFn.mk f1 ∧ aEx = ServiceFn.mk f2 :=
  registry_homogeneous mEx "a" "a" aEx aEx
    (by simp [mEx, ServiceFns.new, ServiceFns.add, ServiceFns.get])
    (by simp [mEx, ServiceFns.new, ServiceFns.add, ServiceFns.get])
